import Mathlib

/-!
Verification development for `network_config_tool.py`, an automated network
configuration tool.  The Python source is shallowly embedded: the per-device
orchestration pipeline (connect → backup → render → diff → conditional apply →
close) becomes a pure function from an oracle describing the outcomes of the
external calls (SSH session, file system, template engine) to a trace of
observable events plus a terminal outcome classification.
-/

namespace NetworkConfigTool

/-! ## Python string splitting

`render_config` splits the rendered template with `str.split('\n')` while
`configure_device` splits the fetched running configuration with
`str.splitlines()`.  Both are embedded faithfully, including the asymmetry
between them on strings that end with a line terminator. -/

/-- Characters that `str.splitlines` treats as line boundaries
(`\n`, `\r`, `\v`, `\f`, FS, GS, RS, NEL, LINE SEPARATOR, PARAGRAPH
SEPARATOR); `\r\n` is additionally collapsed to a single boundary. -/
def pyLineBreakChar (c : Char) : Bool :=
  c == '\n' || c == '\r' || c == '\x0b' || c == '\x0c' ||
  c == '\x1c' || c == '\x1d' || c == '\x1e' || c == '\x85' ||
  c == Char.ofNat 0x2028 || c == Char.ofNat 0x2029

/-- Helper for `pySplitNl`: splits a character list at every `'\n'`,
keeping empty pieces, with `acc` holding the current piece reversed. -/
def pySplitNlAux (acc : List Char) : List Char → List (List Char)
  | [] => [acc.reverse]
  | c :: rest =>
      if c = '\n' then acc.reverse :: pySplitNlAux [] rest
      else pySplitNlAux (c :: acc) rest

/-- Python `s.split('\n')`: separator-based split.  The empty string gives
`[""]`, and a trailing newline yields a trailing empty piece. -/
def pySplitNl (s : String) : List String :=
  (pySplitNlAux [] s.data).map fun l => ⟨l⟩

/-- Helper for `pySplitlines`: terminator-based split with `acc` holding the
current line reversed; `\r\n` counts as one terminator, and no line is
produced for an empty remainder after the last terminator. -/
def pySplitlinesAux (acc : List Char) : List Char → List (List Char)
  | [] => if acc.isEmpty then [] else [acc.reverse]
  | '\r' :: '\n' :: rest => acc.reverse :: pySplitlinesAux [] rest
  | c :: rest =>
      if pyLineBreakChar c then acc.reverse :: pySplitlinesAux [] rest
      else pySplitlinesAux (c :: acc) rest

/-- Python `s.splitlines()`: the empty string gives `[]`, and a trailing
line terminator does not yield a trailing empty line. -/
def pySplitlines (s : String) : List String :=
  (pySplitlinesAux [] s.data).map fun l => ⟨l⟩

/-! ## The line differ

`configure_device` computes `difflib.unified_diff(current_config, new_config)`
and tests the resulting list for emptiness.  `difflib` is part of the Python
standard library and its source is not part of this repository, so the differ
is modelled from the spec (§4.1): a longest-common-subsequence-based line diff
producing an edit script of context (`keep`), insertion (`add`) and deletion
(`del`) lines, with `hasChanges` true iff the script contains at least one
insertion or deletion. -/

/-- One line of a diff edit script: context, insertion, or deletion. -/
inductive DiffLine where
  | keep (s : String)
  | add (s : String)
  | del (s : String)
deriving DecidableEq, Repr

/-- Whether a diff line is an insertion or a deletion (not context). -/
def isChange : DiffLine → Bool
  | .keep _ => false
  | .add _ => true
  | .del _ => true

/-- The insertions and deletions of an edit script (its context dropped). -/
def changesOf (script : List DiffLine) : List DiffLine :=
  script.filter isChange

/-- Number of insertions and deletions in an edit script. -/
def scriptCost (script : List DiffLine) : Nat :=
  (changesOf script).length

/-- `hasChanges`: the script contains at least one insertion or deletion.
Via the round-trip property this is equivalent to the two line sequences
being different, which is exactly when `difflib.unified_diff` produces a
non-empty output list. -/
def hasChangesScript (script : List DiffLine) : Bool :=
  script.any isChange

/-- Modelled from the spec: fuel-indexed LCS line diff.  When the heads
match they become context; otherwise the cheaper of deleting the left head
or inserting the right head is chosen (preferring to keep earlier matching
lines as context via the `≤` tie-break).  The fuel is always sufficient
when it is at least the sum of the lengths, so the fallback is unreachable
from `diff`. -/
def diffFuel : Nat → List String → List String → List DiffLine
  | 0, xs, ys => xs.map DiffLine.del ++ ys.map DiffLine.add
  | fuel + 1, xs, ys =>
      match xs, ys with
      | [], ys => ys.map DiffLine.add
      | x :: xs, [] => (x :: xs).map DiffLine.del
      | x :: xs, y :: ys =>
          if x = y then DiffLine.keep x :: diffFuel fuel xs ys
          else
            let dDel := diffFuel fuel xs (y :: ys)
            let dAdd := diffFuel fuel (x :: xs) ys
            if scriptCost dDel ≤ scriptCost dAdd then DiffLine.del x :: dDel
            else DiffLine.add y :: dAdd

/-- Modelled from the spec: `diff(current, desired)` — the LCS line diff with
enough fuel to run to completion. -/
def diff (current desired : List String) : List DiffLine :=
  diffFuel (current.length + desired.length) current desired

/-- Applies an edit script to the `current` line sequence: context and
deletion lines must match the input (context is kept, deletions are
dropped), insertions are emitted.  Returns `none` when the script does not
fit the input. -/
def applyDiff : List String → List DiffLine → Option (List String)
  | cur, [] => if cur.isEmpty then some [] else none
  | cur, DiffLine.keep s :: rest =>
      match cur with
      | [] => none
      | c :: cs => if c = s then (applyDiff cs rest).map fun r => s :: r else none
  | cur, DiffLine.del s :: rest =>
      match cur with
      | [] => none
      | c :: cs => if c = s then applyDiff cs rest else none
  | cur, DiffLine.add s :: rest =>
      (applyDiff cur rest).map fun r => s :: r

/-! ### Differ lemmas -/

lemma applyDiff_allAdd (ys : List String) :
    applyDiff [] (ys.map DiffLine.add) = some ys := by
  induction ys with
  | nil => simp [applyDiff]
  | cons y ys ih => simp [applyDiff, ih]

lemma applyDiff_allDel (xs : List String) :
    applyDiff xs (xs.map DiffLine.del) = some [] := by
  induction xs with
  | nil => simp [applyDiff]
  | cons x xs ih => simp [applyDiff, ih]

/-- Round-trip for the fuel-indexed diff: with sufficient fuel, applying the
produced edit script to `current` reproduces `desired`. -/
lemma applyDiff_diffFuel :
    ∀ (fuel : Nat) (xs ys : List String), xs.length + ys.length ≤ fuel →
      applyDiff xs (diffFuel fuel xs ys) = some ys := by
  intro fuel
  induction fuel with
  | zero =>
      intro xs ys h
      have hx : xs = [] := List.length_eq_zero.mp (by omega)
      have hy : ys = [] := List.length_eq_zero.mp (by omega)
      subst hx; subst hy
      simp [diffFuel, applyDiff]
  | succ fuel ih =>
      intro xs ys h
      cases xs with
      | nil => simpa [diffFuel] using applyDiff_allAdd ys
      | cons x xs =>
        cases ys with
        | nil => simpa [diffFuel] using applyDiff_allDel (x :: xs)
        | cons y ys =>
          by_cases hxy : x = y
          · subst hxy
            have hlen : xs.length + ys.length ≤ fuel := by
              simp at h; omega
            simp [diffFuel, applyDiff, ih xs ys hlen]
          · have hlen1 : xs.length + (y :: ys).length ≤ fuel := by
              simp at h ⊢; omega
            have hlen2 : (x :: xs).length + ys.length ≤ fuel := by
              simp at h ⊢; omega
            by_cases hc : scriptCost (diffFuel fuel xs (y :: ys)) ≤
                scriptCost (diffFuel fuel (x :: xs) ys)
            · simp [diffFuel, hxy, hc, applyDiff, ih xs (y :: ys) hlen1]
            · simp [diffFuel, hxy, hc, applyDiff, ih (x :: xs) ys hlen2]

/-- Diffing a sequence against itself yields pure context. -/
lemma diffFuel_self (fuel : Nat) (xs : List String)
    (h : xs.length + xs.length ≤ fuel) :
    diffFuel fuel xs xs = xs.map DiffLine.keep := by
  induction fuel generalizing xs with
  | zero =>
      have hx : xs = [] := by
        cases xs with
        | nil => rfl
        | cons a l => simp at h
      subst hx; simp [diffFuel]
  | succ fuel ih =>
      cases xs with
      | nil => simp [diffFuel]
      | cons x xs =>
          have hlen : xs.length + xs.length ≤ fuel := by simp at h; omega
          simp [diffFuel, ih xs hlen]

lemma diff_self (xs : List String) : diff xs xs = xs.map DiffLine.keep :=
  diffFuel_self _ xs (by omega)

lemma hasChangesScript_map_keep (xs : List String) :
    hasChangesScript (xs.map DiffLine.keep) = false := by
  simp [hasChangesScript, isChange]

lemma changesOf_map_keep (xs : List String) :
    changesOf (xs.map DiffLine.keep) = [] := by
  simp [changesOf]
  intro a ha
  simp [isChange]

/-! ## Data model and per-device orchestration

`configure_device(device_info, template, backup_dir)` builds a
`NetworkDevice`, then inside one `try` block: connects, backs up, renders,
fetches and splits the current configuration, diffs, and pushes the new
configuration when the diff list is non-empty; every exception from the
`try` body is caught and logged, and `device.close()` runs in the `finally`
clause.  The external calls (Netmiko connect, the two `get_config` command
executions, the backup file write, the Jinja2 render, `send_config_set`)
are oracles in a `DeviceEnv`; the observable behaviour is a trace of
events plus an `Outcome` classifying the terminal log line. -/

/-- The fields of a `NetworkDevice` / one device record of the inventory. -/
structure DeviceInfo where
  hostname : String
  username : String
  password : String
  device_type : String
deriving DecidableEq, Repr

/-- Results of the external calls made on behalf of one device, in program
order: `connectResult` (Netmiko `ConnectHandler`), `fetch1` (the
`get_config` inside `backup_config`), `writeResult` (the backup file
write), `renderResult` (the Jinja2 render), `fetch2` (the second
`get_config`), `sendResult` (`send_config_set`).  `Except.error e` models
the call raising an exception with message `e`. -/
structure DeviceEnv where
  connectResult : Except String Unit
  fetch1 : Except String String
  writeResult : Except String Unit
  renderResult : Except String String
  fetch2 : Except String String
  sendResult : Except String String
deriving Repr

/-- Observable events of one `configure_device` run. -/
inductive Event where
  | connected
  | wroteBackup (filename : String) (content : String)
  | loggedDiff (script : List DiffLine)
  | sentConfigSet (config : List String)
  | loggedError (msg : String)
  | closeCalled
  | disconnected
deriving DecidableEq, Repr

/-- Classification of the terminal log line of one `configure_device` run:
the Python function itself returns `None`, but each run ends with exactly
one of "completed successfully", "No configuration changes needed", or
"Failed to configure". -/
inductive Outcome where
  | Applied
  | NoChangeNeeded
  | Failed (reason : String)
deriving DecidableEq, Repr

/-- The events of `device.close()` in the `finally` clause: `close` is
always invoked; it calls `connection.disconnect()` only when a connection
was established (`self.connection` is left `None` by a failed connect). -/
def closeEv (connectionLive : Bool) : List Event :=
  if connectionLive then [Event.closeCalled, Event.disconnected]
  else [Event.closeCalled]

/-- The backup filename built by `backup_config`. -/
def backupFilename (backup_dir hostname : String) : String :=
  backup_dir ++ "/" ++ hostname ++ "_backup.cfg"

/-- `configure_device`: one per-device orchestration run, returning the
event trace and the outcome classification.  Each `match` on an oracle
field mirrors one fallible call of the `try` body; every `.error` branch
is the `except` clause (log and fall through), and `closeEv` is the
`finally` clause appended on every path. -/
def configure_device (info : DeviceInfo) (env : DeviceEnv)
    (backup_dir : String) : List Event × Outcome :=
  match env.connectResult with
  | .error e => ([Event.loggedError e] ++ closeEv false, Outcome.Failed e)
  | .ok _ =>
    match env.fetch1 with
    | .error e =>
        ([Event.connected, Event.loggedError e] ++ closeEv true,
         Outcome.Failed e)
    | .ok cfg1 =>
      match env.writeResult with
      | .error e =>
          ([Event.connected, Event.loggedError e] ++ closeEv true,
           Outcome.Failed e)
      | .ok _ =>
        let backupEvs :=
          [Event.connected,
           Event.wroteBackup (backupFilename backup_dir info.hostname) cfg1]
        match env.renderResult with
        | .error e =>
            (backupEvs ++ [Event.loggedError e] ++ closeEv true,
             Outcome.Failed e)
        | .ok rendered =>
          let new_config := pySplitNl rendered
          match env.fetch2 with
          | .error e =>
              (backupEvs ++ [Event.loggedError e] ++ closeEv true,
               Outcome.Failed e)
          | .ok cfg2 =>
            let current_config := pySplitlines cfg2
            let d := diff current_config new_config
            if hasChangesScript d then
              match env.sendResult with
              | .error e =>
                  (backupEvs ++ [Event.loggedDiff d, Event.loggedError e] ++
                     closeEv true,
                   Outcome.Failed e)
              | .ok _ =>
                  (backupEvs ++
                     [Event.loggedDiff d, Event.sentConfigSet new_config] ++
                     closeEv true,
                   Outcome.Applied)
            else (backupEvs ++ closeEv true, Outcome.NoChangeNeeded)

/-! ## Fleet coordination -/

/-- `configure_devices_parallel`: submits one `configure_device` call per
device to a `ThreadPoolExecutor` and waits for every future via
`as_completed` + `future.result()`.  The first component collects each
device's run (its effects happen regardless of other devices' failures);
the second component is the function's return value — the Python function
has no `return` statement, so it returns `None`, modelled as `Unit`. -/
def configure_devices_parallel (devices : List DeviceInfo)
    (envOf : String → DeviceEnv) (backup_dir : String) :
    List (List Event × Outcome) × Unit :=
  (devices.map fun d => configure_device d (envOf d.hostname) backup_dir, ())

/-- The fleet-level report the spec describes. -/
structure FleetReport where
  applied : Nat
  noChange : Nat
  failed : List (String × String)
deriving DecidableEq, Repr

/-- Modelled from the spec: the aggregation `runAll` is specified to
perform — counts of `Applied` and `NoChangeNeeded` outcomes and the list
of failed hostnames paired with their reasons.  The source has no
counterpart of this definition; it exists to be compared with what
`configure_devices_parallel` actually returns. -/
def specFleetReport (devices : List DeviceInfo) (envOf : String → DeviceEnv)
    (backup_dir : String) : FleetReport :=
  let outcomes := devices.map fun d =>
    (d.hostname, (configure_device d (envOf d.hostname) backup_dir).2)
  { applied := (outcomes.filter fun p => p.2 = Outcome.Applied).length
    noChange := (outcomes.filter fun p => p.2 = Outcome.NoChangeNeeded).length
    failed := outcomes.filterMap fun p =>
      match p.2 with
      | Outcome.Failed r => some (p.1, r)
      | _ => none }

/-! ## Trace observers -/

/-- Whether the trace contains a configuration push. -/
def containsSend : List Event → Bool
  | [] => false
  | Event.sentConfigSet _ :: _ => true
  | _ :: rest => containsSend rest

/-- Whether the trace contains a backup file write. -/
def containsBackupWrite : List Event → Bool
  | [] => false
  | Event.wroteBackup _ _ :: _ => true
  | _ :: rest => containsBackupWrite rest

/-- Number of `close()` invocations in the trace. -/
def countClose : List Event → Nat
  | [] => 0
  | Event.closeCalled :: rest => countClose rest + 1
  | _ :: rest => countClose rest

/-- Scans a trace left to right; `seenBackup` records whether a backup
write has already occurred.  Returns `false` iff some configuration push
occurs with no backup write strictly earlier in the trace. -/
def sendAfterBackup (seenBackup : Bool) : List Event → Bool
  | [] => true
  | Event.wroteBackup _ _ :: rest => sendAfterBackup true rest
  | Event.sentConfigSet _ :: rest => seenBackup && sendAfterBackup seenBackup rest
  | _ :: rest => sendAfterBackup seenBackup rest

/-! ## Bounded worker pool

`configure_devices_parallel` runs the per-device orchestrations on a
`ThreadPoolExecutor(max_workers=max_workers)` (default 5).  The executor is
Python standard library, not part of this repository, so its scheduling is
modelled from the spec (§5): a fixed-size worker pool that may start a
pending task only while fewer than `maxWorkers` tasks are running, and in
which any running task may finish. -/

/-- Modelled from the spec: counts of per-device orchestration tasks that
are still pending, currently running on a worker, and finished. -/
structure PoolState where
  pending : Nat
  running : Nat
  done : Nat
deriving DecidableEq, Repr

/-- Modelled from the spec: one scheduling step of the bounded worker pool.
A pending task may start only while fewer than `maxWorkers` tasks run; any
running task may finish.  No step removes a task without completing it
(no cancellation). -/
inductive PoolStep (maxWorkers : Nat) : PoolState → PoolState → Prop
  | start (p r d : Nat) : r < maxWorkers →
      PoolStep maxWorkers ⟨p + 1, r, d⟩ ⟨p, r + 1, d⟩
  | finish (p r d : Nat) :
      PoolStep maxWorkers ⟨p, r + 1, d⟩ ⟨p, r, d + 1⟩

/-- Reflexive-transitive closure of `PoolStep`. -/
inductive PoolReach (maxWorkers : Nat) : PoolState → PoolState → Prop
  | refl (s : PoolState) : PoolReach maxWorkers s s
  | tail {s t u : PoolState} : PoolReach maxWorkers s t →
      PoolStep maxWorkers t u → PoolReach maxWorkers s u

/-- Initial pool state of a fleet run: every device's orchestration task is
pending. -/
def fleetInit (devices : List DeviceInfo) : PoolState :=
  ⟨devices.length, 0, 0⟩

/-- Termination measure of the pool: strictly decreases at every step. -/
def poolMeasure (s : PoolState) : Nat :=
  2 * s.pending + s.running

/-! ## Concrete fixtures -/

/-- A sample device record. -/
def dev1 : DeviceInfo :=
  { hostname := "r1", username := "admin", password := "pw", device_type := "ios" }

/-- Oracle: every call succeeds and the device has drift (current and
rendered configurations differ). -/
def envDrift : DeviceEnv :=
  { connectResult := .ok ()
    fetch1 := .ok "hostname OLD"
    writeResult := .ok ()
    renderResult := .ok "hostname NEW"
    fetch2 := .ok "hostname OLD"
    sendResult := .ok "applied" }

/-- Oracle: every call succeeds and the device has no drift. -/
def envNoDrift : DeviceEnv :=
  { connectResult := .ok ()
    fetch1 := .ok "hostname R1"
    writeResult := .ok ()
    renderResult := .ok "hostname R1"
    fetch2 := .ok "hostname R1"
    sendResult := .ok "applied" }

/-- Oracle: the backup file write fails; everything else would succeed and
the device has drift, so a push would follow if the run proceeded. -/
def envBackupFail : DeviceEnv :=
  { connectResult := .ok ()
    fetch1 := .ok "hostname OLD"
    writeResult := .error "disk full"
    renderResult := .ok "hostname NEW"
    fetch2 := .ok "hostname OLD"
    sendResult := .ok "applied" }

/-- Oracle: the connection attempt fails. -/
def envConnectFail : DeviceEnv :=
  { connectResult := .error "timed out"
    fetch1 := .ok "hostname OLD"
    writeResult := .ok ()
    renderResult := .ok "hostname NEW"
    fetch2 := .ok "hostname OLD"
    sendResult := .ok "applied" }

/-- Oracle: every call succeeds; the rendered and fetched configurations
are the same text ending in a newline, so `split` and `splitlines`
disagree on it. -/
def envTrailingNewline : DeviceEnv :=
  { connectResult := .ok ()
    fetch1 := .ok "hostname R1\n"
    writeResult := .ok ()
    renderResult := .ok "hostname R1\n"
    fetch2 := .ok "hostname R1\n"
    sendResult := .ok "applied" }

/-! ## Claim theorems -/

/-- C1 counterexample: with a connected session, a fetched configuration, a
failing backup write, and every later step set to succeed on a drifted
device, the claim predicts that render, diff and the push are still
attempted and the outcome is `Applied`; the code instead catches the
backup exception, sends nothing, and the outcome is `Failed`. -/
theorem backup_failure_halts_cex :
    (configure_device dev1 envBackupFail "./backups").2 = Outcome.Failed "disk full" ∧
      containsSend (configure_device dev1 envBackupFail "./backups").1 = false := by
  constructor <;> rfl

/-- C1 (corrected): when the backup write fails while the session is
connected and the current configuration was fetched, the exception
propagates out of `backup_config` into `configure_device`'s single `try`
block: render, diff and the push are never attempted, the failure is
logged, the session is closed, and the outcome is `Failed`. -/
theorem backup_failure_aborts (info : DeviceInfo) (env : DeviceEnv)
    (dir c e : String) (hc : env.connectResult = .ok ())
    (hf : env.fetch1 = .ok c) (hw : env.writeResult = .error e) :
    configure_device info env dir =
      ([Event.connected, Event.loggedError e] ++ closeEv true,
       Outcome.Failed e) := by
  obtain ⟨cr, f1, wr, rr, f2, sr⟩ := env
  simp only at hc hf hw
  subst hc; subst hf; subst hw
  rfl

/-- C1 witness: the amended theorem applied to the fixture oracle. -/
theorem backup_failure_aborts_witness :
    configure_device dev1 envBackupFail "./backups" =
      ([Event.connected, Event.loggedError "disk full"] ++ closeEv true,
       Outcome.Failed "disk full") :=
  backup_failure_aborts dev1 envBackupFail "./backups" "hostname OLD"
    "disk full" rfl rfl rfl

/-- C2 counterexample: the value returned by `configure_devices_parallel`
is identical for a run in which every device fails and a run in which
every device is applied, while the fleet reports the spec prescribes for
the two runs differ — so the returned value cannot contain the applied
count, the no-change count, or the failed hostname/reason list. -/
theorem fleet_report_not_returned_cex :
    (configure_devices_parallel [dev1] (fun _ => envConnectFail) "./backups").2 =
      (configure_devices_parallel [dev1] (fun _ => envDrift) "./backups").2 ∧
    specFleetReport [dev1] (fun _ => envConnectFail) "./backups" ≠
      specFleetReport [dev1] (fun _ => envDrift) "./backups" := by
  refine ⟨rfl, ?_⟩
  decide

/-- C2 (corrected): `configure_devices_parallel` dispatches one
`configure_device` run per device and waits for every one of them, but it
returns `None` rather than a fleet report: no applied count, no-change
count, or failed list is aggregated or returned. -/
theorem fleet_coordinator_returns_none (devices : List DeviceInfo)
    (envOf : String → DeviceEnv) (dir : String) (i : Nat) (d : DeviceInfo)
    (h : devices[i]? = some d) :
    ((configure_devices_parallel devices envOf dir).1)[i]? =
        some (configure_device d (envOf d.hostname) dir) ∧
      (configure_devices_parallel devices envOf dir).2 = () := by
  refine ⟨?_, rfl⟩
  simp [configure_devices_parallel, List.getElem?_map, h]

/-- C2 witness: the amended theorem applied to a one-device fleet. -/
theorem fleet_coordinator_returns_none_witness :
    ((configure_devices_parallel [dev1] (fun _ => envDrift) "./backups").1)[0]? =
        some (configure_device dev1 (envDrift) "./backups") ∧
      (configure_devices_parallel [dev1] (fun _ => envDrift) "./backups").2 = () :=
  fleet_coordinator_returns_none [dev1] (fun _ => envDrift) "./backups" 0 dev1 rfl

/-- C3 (confirmed): when the connection attempt fails, the run for that
device is exactly an error log followed by the (no-op) `close()`: no
backup write, no push, no render or diff, and the outcome is `Failed`. -/
theorem connect_failure_short_circuits (info : DeviceInfo) (env : DeviceEnv)
    (dir e : String) (hc : env.connectResult = .error e) :
    configure_device info env dir =
        ([Event.loggedError e, Event.closeCalled], Outcome.Failed e) ∧
      containsBackupWrite (configure_device info env dir).1 = false ∧
      containsSend (configure_device info env dir).1 = false := by
  obtain ⟨cr, f1, wr, rr, f2, sr⟩ := env
  simp only at hc
  subst hc
  exact ⟨rfl, rfl, rfl⟩

/-- C3 witness: the theorem applied to the fixture oracle whose connect
fails. -/
theorem connect_failure_short_circuits_witness :
    configure_device dev1 envConnectFail "./backups" =
        ([Event.loggedError "timed out", Event.closeCalled],
         Outcome.Failed "timed out") ∧
      containsBackupWrite (configure_device dev1 envConnectFail "./backups").1 = false ∧
      containsSend (configure_device dev1 envConnectFail "./backups").1 = false :=
  connect_failure_short_circuits dev1 envConnectFail "./backups" "timed out" rfl

/-- C4 (confirmed): whatever the oracle does, a `configure_device` run ends
in one of the three outcomes — every raised error is converted into
`Failed` at the orchestrator boundary, never propagated — and the
coordinator's collection contains the full run of every dispatched device,
each depending only on that device's own oracle (no cancellation, all
awaited). -/
theorem device_errors_contained (info : DeviceInfo) (env : DeviceEnv)
    (dir : String) (devices : List DeviceInfo) (envOf : String → DeviceEnv)
    (i : Nat) (d : DeviceInfo) (h : devices[i]? = some d) :
    ((configure_device info env dir).2 = Outcome.Applied ∨
        (configure_device info env dir).2 = Outcome.NoChangeNeeded ∨
        ∃ msg, (configure_device info env dir).2 = Outcome.Failed msg) ∧
      ((configure_devices_parallel devices envOf dir).1).length = devices.length ∧
      ((configure_devices_parallel devices envOf dir).1)[i]? =
        some (configure_device d (envOf d.hostname) dir) := by
  refine ⟨?_, by simp [configure_devices_parallel],
    by simp [configure_devices_parallel, List.getElem?_map, h]⟩
  obtain ⟨cr, f1, wr, rr, f2, sr⟩ := env
  cases cr <;> cases f1 <;> cases wr <;> cases rr <;> cases f2 <;>
    first
      | exact Or.inr (Or.inr ⟨_, rfl⟩)
      | (simp only [configure_device]
         split
         · cases sr
           · exact Or.inr (Or.inr ⟨_, rfl⟩)
           · exact Or.inl rfl
         · exact Or.inr (Or.inl rfl))

/-- C4 witness: the theorem applied to a one-device fleet with a failing
oracle. -/
theorem device_errors_contained_witness :
    ((configure_device dev1 envConnectFail "./backups").2 = Outcome.Applied ∨
        (configure_device dev1 envConnectFail "./backups").2 = Outcome.NoChangeNeeded ∨
        ∃ msg, (configure_device dev1 envConnectFail "./backups").2 = Outcome.Failed msg) ∧
      ((configure_devices_parallel [dev1] (fun _ => envConnectFail) "./backups").1).length = [dev1].length ∧
      ((configure_devices_parallel [dev1] (fun _ => envConnectFail) "./backups").1)[0]? =
        some (configure_device dev1 (envConnectFail) "./backups") :=
  device_errors_contained dev1 envConnectFail "./backups" [dev1]
    (fun _ => envConnectFail) 0 dev1 rfl

/-- C5 (confirmed): in every `configure_device` trace, any
`send_config_set` call is strictly preceded by the backup write — scanning
the trace left to right never meets a push before a backup. -/
theorem backup_strictly_before_send (info : DeviceInfo) (env : DeviceEnv)
    (dir : String) :
    sendAfterBackup false (configure_device info env dir).1 = true := by
  obtain ⟨cr, f1, wr, rr, f2, sr⟩ := env
  cases cr <;> cases f1 <;> cases wr <;> cases rr <;> cases f2 <;>
    first
      | rfl
      | (simp only [configure_device]
         split
         · cases sr <;> rfl
         · rfl)

/-- C6 (confirmed): on every exit path of `configure_device` — applied,
no-change, and every failure including a failed connect — `close()` is
invoked exactly once before the function returns. -/
theorem close_called_exactly_once (info : DeviceInfo) (env : DeviceEnv)
    (dir : String) :
    countClose (configure_device info env dir).1 = 1 := by
  obtain ⟨cr, f1, wr, rr, f2, sr⟩ := env
  cases cr <;> cases f1 <;> cases wr <;> cases rr <;> cases f2 <;>
    first
      | rfl
      | (simp only [configure_device]
         split
         · cases sr <;> rfl
         · rfl)

/-- C7 (confirmed): round-trip correctness of the line diff — applying the
produced edit script's insertions and deletions to `current` reproduces
`desired` exactly. -/
theorem diff_round_trip (current desired : List String) :
    applyDiff current (diff current desired) = some desired :=
  applyDiff_diffFuel (current.length + desired.length) current desired
    (Nat.le_refl _)

/-- C8 (confirmed): diffing identical line sequences yields an edit script
with no insertions or deletions and `hasChanges = false`; accordingly,
whenever the fetched and rendered texts split to the same line sequence,
`configure_device` sends no configuration push. -/
theorem identical_configs_no_push (xs : List String) (info : DeviceInfo)
    (env : DeviceEnv) (dir c r : String) (hr : env.renderResult = .ok r)
    (hf : env.fetch2 = .ok c) (hid : pySplitlines c = pySplitNl r) :
    changesOf (diff xs xs) = [] ∧
      hasChangesScript (diff xs xs) = false ∧
      containsSend (configure_device info env dir).1 = false := by
  refine ⟨by rw [diff_self]; exact changesOf_map_keep xs,
    by rw [diff_self]; exact hasChangesScript_map_keep xs, ?_⟩
  obtain ⟨cr, f1, wr, rr, f2, sr⟩ := env
  simp only at hr hf
  subst hr; subst hf
  have hcond : hasChangesScript (diff (pySplitlines c) (pySplitNl r)) = false := by
    rw [hid, diff_self]; exact hasChangesScript_map_keep _
  cases cr <;> cases f1 <;> cases wr <;>
    first
      | rfl
      | (simp only [configure_device, hcond, if_false]
         rfl)

/-- C8 witness: the theorem applied to the no-drift fixture oracle. -/
theorem identical_configs_no_push_witness :
    changesOf (diff ["a"] ["a"]) = [] ∧
      hasChangesScript (diff ["a"] ["a"]) = false ∧
      containsSend (configure_device dev1 envNoDrift "./backups").1 = false :=
  identical_configs_no_push ["a"] dev1 envNoDrift "./backups"
    "hostname R1" "hostname R1" rfl rfl (by decide)

/-- C9 (confirmed, modelled from the spec): in the bounded worker pool, from
the initial fleet state every reachable state runs at most `maxWorkers`
orchestrations at once and conserves the task count; any state with no
possible step has every device's task done; and every step strictly
decreases the pool measure, so every execution terminates with all devices
reporting an outcome. -/
theorem pool_bounded_and_complete (devices : List DeviceInfo)
    (maxWorkers : Nat) (hpos : 0 < maxWorkers) (s : PoolState)
    (hreach : PoolReach maxWorkers (fleetInit devices) s) :
    s.running ≤ maxWorkers ∧
      s.pending + s.running + s.done = devices.length ∧
      ((¬ ∃ t, PoolStep maxWorkers s t) → s = ⟨0, 0, devices.length⟩) ∧
      (∀ t, PoolStep maxWorkers s t → poolMeasure t < poolMeasure s) := by
  have hdec : ∀ u t, PoolStep maxWorkers u t → poolMeasure t < poolMeasure u := by
    intro u t hstep
    cases hstep with
    | start p r d hr => simp only [poolMeasure]; omega
    | finish p r d => simp only [poolMeasure]; omega
  have hinv : s.running ≤ maxWorkers ∧
      s.pending + s.running + s.done = devices.length := by
    induction hreach with
    | refl => simp [fleetInit]
    | tail hr hstep ih =>
        cases hstep with
        | start p r d hr2 =>
            refine ⟨hr2, ?_⟩
            have := ih.2
            simp at this ⊢
            omega
        | finish p r d =>
            have := ih
            simp at this ⊢
            omega
  refine ⟨hinv.1, hinv.2, ?_, hdec s⟩
  intro hstuck
  obtain ⟨p, r, d⟩ := s
  have hr0 : r = 0 := by
    by_contra hne
    obtain ⟨r0, rfl⟩ : ∃ r0, r = r0 + 1 :=
      ⟨r - 1, by omega⟩
    exact hstuck ⟨⟨p, r0, d + 1⟩, PoolStep.finish p r0 d⟩
  subst hr0
  have hp0 : p = 0 := by
    by_contra hne
    obtain ⟨p0, rfl⟩ : ∃ p0, p = p0 + 1 :=
      ⟨p - 1, by omega⟩
    exact hstuck ⟨⟨p0, 1, d⟩, PoolStep.start p0 0 d hpos⟩
  subst hp0
  have := hinv.2
  simp at this
  simp [this]

/-- C9 witness: the pool theorem applied to a five-device fleet with two
workers at the initial state. -/
theorem pool_bounded_and_complete_witness :
    (fleetInit (List.replicate 5 dev1)).running ≤ 2 ∧
      (fleetInit (List.replicate 5 dev1)).pending +
          (fleetInit (List.replicate 5 dev1)).running +
          (fleetInit (List.replicate 5 dev1)).done =
        (List.replicate 5 dev1).length ∧
      ((¬ ∃ t, PoolStep 2 (fleetInit (List.replicate 5 dev1)) t) →
        fleetInit (List.replicate 5 dev1) = ⟨0, 0, (List.replicate 5 dev1).length⟩) ∧
      (∀ t, PoolStep 2 (fleetInit (List.replicate 5 dev1)) t →
        poolMeasure t < poolMeasure (fleetInit (List.replicate 5 dev1))) :=
  pool_bounded_and_complete (List.replicate 5 dev1) 2 (by decide)
    (fleetInit (List.replicate 5 dev1))
    (PoolReach.refl (fleetInit (List.replicate 5 dev1)))

/-- C10 (confirmed): `split('\n')` and `splitlines()` disagree on any text
ending in a newline, so for a device whose fetched and rendered
configurations are the same newline-terminated text the diff is non-empty
and `configure_device` pushes the configuration although there is no
drift. -/
theorem split_mismatch_pushes_without_drift :
    pySplitNl "hostname R1\n" ≠ pySplitlines "hostname R1\n" ∧
      envTrailingNewline.fetch2 = Except.ok "hostname R1\n" ∧
      envTrailingNewline.renderResult = Except.ok "hostname R1\n" ∧
      containsSend (configure_device dev1 envTrailingNewline "./backups").1 = true ∧
      (configure_device dev1 envTrailingNewline "./backups").2 = Outcome.Applied := by
  refine ⟨by decide, rfl, rfl, rfl, rfl⟩

end NetworkConfigTool
